import Mathlib

/-!
# BGE: actor identity, component lookup and utilities

A shallow embedding of the actor/component layer of the BGE engine
(`Source/BGE/Actors`), of its string, random-range, vector and timer utilities
(`Source/BGE/Utilities`) and of the exit code of the utility toolkit
(`Source/BGE/Engine/BGUT.cpp`), together with the properties its design
write-up states about them.

Conventions of the embedding:
* `std::uint32_t` values are natural numbers; every arithmetic result is
  reduced modulo `2 ^ 32`.
* Heap objects are named by addresses; a `std::shared_ptr` or `std::weak_ptr`
  is an optional address, `none` being the empty pointer.
* A member function that may write to its receiver returns the new receiver
  next to its result.
* A `std::string` is the list of its characters; `int` values are integers.
-/

namespace BGE

/-! ## Utilities/Types.hpp -/

/-- Number of values of `std::uint32_t`. -/
def UINT32_MOD : Nat := 4294967296

/-- Source: `using ActorID = std::uint32_t;` -/
abbrev ActorID := Nat

/-- Source: `using ActorComponentID = std::uint32_t;` -/
abbrev ActorComponentID := Nat

/-- Source: `using ActorType = std::string;` -/
abbrev ActorType := String

/-- Source: `inline constexpr ActorID kINVALID_ACTOR_ID = 0;` -/
def kINVALID_ACTOR_ID : ActorID := 0

/-- Address of an object on the heap. -/
abbrev Addr := Nat

/-- Source: `StrongActorPtr = std::shared_ptr<Actor>`; `none` is the empty pointer. -/
abbrev StrongActorPtr := Option Addr

/-- Source: `StrongActorComponentPtr = std::shared_ptr<ActorComponent>`. -/
abbrev StrongActorComponentPtr := Option Addr

/-- Source: `std::weak_ptr<ActorComponentType>`; `none` is the empty weak pointer. -/
abbrev WeakActorComponentPtr := Option Addr

/-! ## Actors/ActorFactory.hpp, Actors/ActorFactory.cpp -/

/-- The data member of `class ActorFactory`. -/
structure ActorFactory where
  /-- ID of the last constructed Actor -/
  m_lastActorID : ActorID
deriving DecidableEq

namespace ActorFactory

/-- Source: `ActorFactory::ActorFactory(void) : m_lastActorID(kINVALID_ACTOR_ID)`. -/
def ctor : ActorFactory :=
  { m_lastActorID := kINVALID_ACTOR_ID }

/-- Source: `ActorID GetNextActorID(void) { ++m_lastActorID; return m_lastActorID; }`
The pre-increment wraps at `2 ^ 32`; the value returned is the one read back
after the increment. -/
def GetNextActorID (self : ActorFactory) : ActorID × ActorFactory :=
  let incremented : ActorFactory :=
    { m_lastActorID := (self.m_lastActorID + 1) % UINT32_MOD }
  (incremented.m_lastActorID, incremented)

/-- The identifier returned by call number `k` (counting from zero) in a run of
consecutive `GetNextActorID` calls that starts in state `self`. -/
def nthID : ActorFactory → Nat → ActorID
  | self, 0 => self.GetNextActorID.1
  | self, k + 1 => nthID self.GetNextActorID.2 k

end ActorFactory

/-! ## Actors/ActorComponent.hpp -/

/-- The state of an `ActorComponent` object. `name` stands for the concrete
subclass: it is the string that subclass returns from the pure virtual
`VGetName`. -/
structure ActorComponent where
  m_pOwner : StrongActorPtr
  name : String
deriving DecidableEq

namespace ActorComponent

/-- Source: `virtual std::string VGetName(void) const = 0;` -/
def VGetName (self : ActorComponent) : String :=
  self.name

/-- Source: `static ActorComponentID GetIDFromName(std::string_view componentName)
{ return 0; }` -/
def GetIDFromName (_componentName : String) : ActorComponentID :=
  0

/-- Source: `virtual ActorComponentID VGetID(void) const
{ return GetIDFromName(VGetName()); }` -/
def VGetID (self : ActorComponent) : ActorComponentID :=
  GetIDFromName self.VGetName

/-- Source: `void SetOwnerPtr(StrongActorPtr pOwner) { m_pOwner = pOwner; }`
Private; `ActorFactory` is the only friend. -/
def SetOwnerPtr (self : ActorComponent) (pOwner : StrongActorPtr) : ActorComponent :=
  { self with m_pOwner := pOwner }

end ActorComponent

/-- The component objects on the heap, by address. -/
abbrev ComponentHeap := Addr → Option ActorComponent

/-! ## Actors/Actor.hpp, Actors/Actor.cpp -/

/-- Source: `std::map<ActorComponentID, StrongActorComponentPtr>` as its sequence of
entries in iteration order. -/
structure ActorComponentMap where
  entries : List (ActorComponentID × StrongActorComponentPtr)
deriving DecidableEq

namespace ActorComponentMap

/-- The representation invariant of `std::map`: keys strictly ascending, hence
no key twice. -/
def WF (m : ActorComponentMap) : Prop :=
  m.entries.Pairwise (fun x y => x.1 < y.1)

instance (m : ActorComponentMap) : Decidable m.WF := by
  unfold WF; infer_instance

/-- Search of the entry sequence for a key. -/
def findIn : List (ActorComponentID × StrongActorComponentPtr) → ActorComponentID →
    Option StrongActorComponentPtr
  | [], _ => none
  | (k, v) :: rest, cID => if k = cID then some v else findIn rest cID

/-- Source: `std::map::find`: the mapped value of the entry with key `cID`; `none`
stands for the iterator `end()`. -/
def find (m : ActorComponentMap) (cID : ActorComponentID) : Option StrongActorComponentPtr :=
  findIn m.entries cID

/-- Source: `std::map::clear`. -/
def clear (_m : ActorComponentMap) : ActorComponentMap :=
  { entries := [] }

end ActorComponentMap

/-- Source: `std::weak_ptr<T> pWeakSub(pSub)` after `std::static_pointer_cast<T>(pBase)`:
the weak pointer names the object the strong pointer names, and is empty when
the strong pointer is empty. -/
def toWeak (pBase : StrongActorComponentPtr) : WeakActorComponentPtr :=
  pBase

/-- The data members of `class Actor`. -/
structure Actor where
  /-- Unique ID for this actor -/
  m_ID : ActorID
  /-- All components of this actor -/
  m_components : ActorComponentMap
  /-- Name of this actor -/
  m_type : ActorType
  /-- name of XML init file -/
  m_resourceFilename : String
deriving DecidableEq

namespace Actor

/-- Source: `BGE::Actor::Actor(ActorID aID) { }`
There is no member initialiser list and the body is empty: the map and the two
strings are default-constructed, and `m_ID` keeps whatever the object's storage
held before construction, given here as `storage`. -/
def ctor (storage : ActorID) (_aID : ActorID) : Actor :=
  { m_ID := storage
    m_components := { entries := [] }
    m_type := ""
    m_resourceFilename := "" }

/-- Source: `ActorID GetID(void) const noexcept { return m_ID; }` -/
def GetID (self : Actor) : ActorID :=
  self.m_ID

/-- Source: `const ActorComponentMap &GetComponents(void) const { return m_components; }` -/
def GetComponents (self : Actor) : ActorComponentMap :=
  self.m_components

/-- Source: `template <typename ActorComponentType> std::weak_ptr<ActorComponentType>
GetComponentPtr(ActorComponentID cID)`. A non-const member: the receiver is
returned next to the weak pointer. -/
def GetComponentPtr (self : Actor) (cID : ActorComponentID) : WeakActorComponentPtr × Actor :=
  match self.m_components.find cID with
  | some pBase => (toWeak pBase, self)
  | none => (none, self)

/-- Source: `template <typename ActorComponentType> std::weak_ptr<ActorComponentType>
GetComponent(std::string_view componentName)`. -/
def GetComponent (self : Actor) (componentName : String) : WeakActorComponentPtr × Actor :=
  let aID := ActorComponent.GetIDFromName componentName
  match self.m_components.find aID with
  | some pBase => (toWeak pBase, self)
  | none => (none, self)

/-- Source: `void BGE::Actor::Destroy(void) { m_components.clear(); }` -/
def Destroy (self : Actor) : Actor :=
  { self with m_components := self.m_components.clear }

/-- Source: `void BGE::Actor::AddComponent(StrongActorComponentPtr pComponent) { }`
The body is empty: neither the receiver nor any component object is written. -/
def AddComponent (self : Actor) (_pComponent : StrongActorComponentPtr)
    (heap : ComponentHeap) : Actor × ComponentHeap :=
  (self, heap)

end Actor

/-! ## Utilities/String.cpp -/

/-- Source: `bool BGE::WildcardMatch(std::string_view pattern, std::string_view str)
{ return false; }` -/
def WildcardMatch (_pattern : String) (_str : String) : Bool :=
  false

/-- The matching relation the header comment of `WildcardMatch` names
("Supports * & ? patterns"), written from the words of the specification and
not from the function body: `*` matches any, possibly empty, run of characters,
`?` matches exactly one character, any other pattern character matches itself. -/
def wildcardSpecMatches : List Char → List Char → Bool
  | [], s => s.isEmpty
  | p :: ps, s =>
    if p = '*' then s.tails.any (fun t => wildcardSpecMatches ps t)
    else
      match s with
      | [] => false
      | c :: cs => (p = '?' || p = c) && wildcardSpecMatches ps cs

/-- Source: `std::isblank(ch)` of `<cctype>` in the default "C" locale: true for the
space and the horizontal tab, false for every other character. -/
def isblank (ch : Char) : Bool :=
  ch = ' ' || ch = Char.ofNat 9

/-- Source: `bool IsNotBlank(int ch) { return !std::isblank(ch); }` -/
def IsNotBlank (ch : Char) : Bool :=
  !isblank ch

/-- Source: `std::find_if(first, last, pred)` over a character sequence: the offset
from `first` of the first element that satisfies `pred`, the length of the
sequence (the iterator `last`) when there is none. -/
def find_if (pred : Char → Bool) : List Char → Nat
  | [] => 0
  | c :: cs => if pred c then 0 else find_if pred cs + 1

/-- Source: `std::string::erase(first, last)`, the iterators given as offsets from
`begin()`: the characters in `[first, last)` are removed. -/
def erase (str : List Char) (first last : Nat) : List Char :=
  str.take first ++ str.drop last

/-- Source: `str.erase(str.begin(), std::find_if(str.begin(), str.end(), ::IsNotBlank));
return str;` -/
def TrimLeft (str : List Char) : List Char :=
  erase str 0 (find_if IsNotBlank str)

/-- Source: `str.erase(std::find_if(str.rbegin(), str.rend(), ::IsNotBlank).base(),
str.end()); return str;` The reverse iterator found at offset `k` from
`rbegin()` has its `base()` at offset `length - k` from `begin()`. -/
def TrimRight (str : List Char) : List Char :=
  erase str (str.length - find_if IsNotBlank str.reverse) str.length

/-- Source: `return TrimLeft(TrimRight(std::move(str)));` -/
def TrimString (str : List Char) : List Char :=
  TrimLeft (TrimRight str)

/-- The whitespace characters as the specification lists them: space,
horizontal tab, newline, carriage return, form feed, vertical tab. -/
def isListedWhitespace (ch : Char) : Bool :=
  ch = ' ' || ch = Char.ofNat 9 || ch = Char.ofNat 10 || ch = Char.ofNat 13 ||
    ch = Char.ofNat 12 || ch = Char.ofNat 11

/-! ## Utilities/Random.hpp -/

/-- Source: `template <Math::Numeric Type> struct RandomRange { Type minValue, maxValue; };`
at an integral `Type`. -/
structure RandomRange where
  minValue : Int
  maxValue : Int
deriving DecidableEq

/-- Source: `return !(range.minValue < range.maxValue);` -/
def IsRandomRangeValid (range : RandomRange) : Bool :=
  !(decide (range.minValue < range.maxValue))

/-- The condition `Random::Generate` asserts before it draws a number:
`BGE_ASSERT(IsRandomRangeValid(range)); // Check for valid range`. -/
def GenerateAssertion (range : RandomRange) : Bool :=
  IsRandomRangeValid range

/-! ## Utilities/Math.hpp

`Vec2<int>` and `Vec3<int>` over the integers, without overflow. -/

/-- Source: `class Vec2` with `Type x, y;`. -/
structure Vec2 where
  x : Int
  y : Int
deriving DecidableEq

/-- Source: `class Vec3` with `Type x, y, z;`. -/
structure Vec3 where
  x : Int
  y : Int
  z : Int
deriving DecidableEq

namespace Vec2

/-- Source: `Vec2<Type> operator-(void) const { return Vec2<Type>(-x, -y); }` -/
def neg (self : Vec2) : Vec2 :=
  { x := -self.x, y := -self.y }

/-- Source: `void Inverse(void) { -(*this); } // Negate this`
The negated copy is a discarded temporary; nothing is assigned to the receiver. -/
def Inverse (self : Vec2) : Vec2 :=
  let _discarded := self.neg
  self

end Vec2

namespace Vec3

/-- Source: `Vec3<Type> operator-(void) const { return Vec3<Type>(-x, -y, -z); }` -/
def neg (self : Vec3) : Vec3 :=
  { x := -self.x, y := -self.y, z := -self.z }

/-- Source: `void Inverse(void) { (*this) = -(*this); } // Negate this` -/
def Inverse (self : Vec3) : Vec3 :=
  self.neg

/-- Source: `return Vec3<Type>((y * vec.z) - (z * vec.y), (z * vec.x) - (x * vec.z),
(x * vec.y) - (y * vec.x));` -/
def Cross (self vec : Vec3) : Vec3 :=
  { x := (self.y * vec.z) - (self.z * vec.y)
    y := (self.z * vec.x) - (self.x * vec.z)
    z := (self.x * vec.y) - (self.y * vec.x) }

/-- Source: `return ((x * vec.x) + (y * vec.y) + (z * vec.z));` -/
def Dot (self vec : Vec3) : Int :=
  (self.x * vec.x) + (self.y * vec.y) + (self.z * vec.z)

end Vec3

/-! ## Utilities/Timer.hpp, Utilities/Timer.cpp

A reading of `std::chrono::high_resolution_clock::now()` is an argument of the
member that takes it. Time points and durations are whole clock ticks; the
conversion of a duration to a `float` count of milliseconds is not modelled. -/

/-- Source: `std::chrono::high_resolution_clock::time_point`, in clock ticks. -/
abbrev TimePoint := Int

/-- The data members of `class Timer`. -/
structure Timer where
  /-- Pause state -/
  m_isPaused : Bool
  m_start : TimePoint
  m_end : TimePoint
deriving DecidableEq

namespace Timer

/-- Source: `m_start = ch::high_resolution_clock::now();
m_end = ch::high_resolution_clock::now();` -/
def Reset (self : Timer) (now₁ now₂ : TimePoint) : Timer :=
  { self with m_start := now₁, m_end := now₂ }

/-- Source: `BGE::Timer::Timer(bool isPaused) : m_isPaused(isPaused) { Reset(); }`
The two time points are value-initialised to the clock epoch before `Reset`. -/
def ctor (isPaused : Bool) (now₁ now₂ : TimePoint) : Timer :=
  Reset { m_isPaused := isPaused, m_start := 0, m_end := 0 } now₁ now₂

/-- Source: `if (!m_isPaused) return; m_isPaused = false;
m_start = ch::high_resolution_clock::now();` -/
def Start (self : Timer) (now : TimePoint) : Timer :=
  if !self.m_isPaused then self
  else { self with m_isPaused := false, m_start := now }

/-- Source: `if (m_isPaused) return; m_isPaused = true;
m_end = ch::high_resolution_clock::now();` -/
def Stop (self : Timer) (now : TimePoint) : Timer :=
  if self.m_isPaused then self
  else { self with m_isPaused := true, m_end := now }

/-- Source: `bool IsPaused(void) const noexcept { return m_isPaused; }` -/
def IsPaused (self : Timer) : Bool :=
  self.m_isPaused

/-- Source: `return ((!m_isPaused) ? Duration(ch::high_resolution_clock::now() - m_start)
: Duration(m_end - m_start));` -/
def GetRawDuration (self : Timer) (now : TimePoint) : Int :=
  if !self.m_isPaused then now - self.m_start
  else self.m_end - self.m_start

/-- Source: `return GetRawDuration().count();` -/
def GetElapsedMillis (self : Timer) (now : TimePoint) : Int :=
  self.GetRawDuration now

/-- The timer of the scenario: constructed paused (the default argument) with
clock readings `c₁ c₂`, started at `t0`, stopped at `t1`, started again at
`t2`. -/
def startStopStart (c₁ c₂ t0 t1 t2 : TimePoint) : Timer :=
  (((ctor true c₁ c₂).Start t0).Stop t1).Start t2

end Timer

/-! ## Engine/BGUT.hpp, Engine/BGUT.cpp -/

/-- Source: `#define BGE_EXIT_SUCCESS 0 // Pass to BGUTSendExitCode()` -/
def BGE_EXIT_SUCCESS : Int := 0

/-- Source: `#define BGE_EXIT_FAILURE 1` -/
def BGE_EXIT_FAILURE : Int := 1

/-- Source: `struct OpenGLVersion { int major = 4, minor = 2; }` -/
structure OpenGLVersion where
  major : Int
  minor : Int
deriving DecidableEq

/-- Source: `struct BGUTData`, the state of the utility toolkit. Raw pointers and
function pointers are optional addresses, `none` being `nullptr`; the SDL window
flags are their integer value. -/
structure BGUTData where
  pWindow : Option Addr
  defWindowFlags : Nat
  pContext : Option Addr
  glVersion : OpenGLVersion
  glDebugEnabled : Bool
  defWindowTitle : String
  defWindowWidth : Int
  defWindowHeight : Int
  windowResizable : Bool
  fullscreenEnabled : Bool
  verticalSyncEnabled : Bool
  multisamplingLevel : Int
  imGuiEnabled : Bool
  isRunning : Bool
  toLimitFrames : Bool
  minFrames : Nat
  mainLoopTimer : Timer
  pUpdateCallback : Option Addr
  pRenderCallback : Option Addr
  pEventHandlerCallback : Option Addr
  exitCode : Int
deriving DecidableEq

/-- Source: `static BGUTData s_BGUT = {};` with the default member initialisers of
`BGUTData`; `now₁ now₂` are the clock readings of `Timer mainLoopTimer{}`. -/
def s_BGUT_initial (now₁ now₂ : TimePoint) : BGUTData :=
  { pWindow := none
    defWindowFlags := 0
    pContext := none
    glVersion := { major := 4, minor := 2 }
    glDebugEnabled := false
    defWindowTitle := ""
    defWindowWidth := 800
    defWindowHeight := 600
    windowResizable := false
    fullscreenEnabled := false
    verticalSyncEnabled := false
    multisamplingLevel := 0
    imGuiEnabled := false
    isRunning := false
    toLimitFrames := false
    minFrames := 6
    mainLoopTimer := Timer.ctor true now₁ now₂
    pUpdateCallback := none
    pRenderCallback := none
    pEventHandlerCallback := none
    exitCode := BGE_EXIT_SUCCESS }

/-- Source: `s_BGUT.exitCode = exitCode; // set exit code for later retrieval
s_BGUT.isRunning = false; // quit MainLoop` -/
def BGUTSendExitCode (s : BGUTData) (exitCode : Int) : BGUTData :=
  let s₁ := { s with exitCode := exitCode }
  { s₁ with isRunning := false }

/-- Source: `int BGE::BGUTGetExitCode(void) { return s_BGUT.exitCode; }` -/
def BGUTGetExitCode (s : BGUTData) : Int :=
  s.exitCode

/-- Source: `s_BGUT.pUpdateCallback = pUpdateCallback;` -/
def BGUTSetCallbackUpdate (s : BGUTData) (pUpdateCallback : Option Addr) : BGUTData :=
  { s with pUpdateCallback := pUpdateCallback }

/-- Source: `s_BGUT.pRenderCallback = pRenderCallback;` -/
def BGUTSetCallbackRender (s : BGUTData) (pRenderCallback : Option Addr) : BGUTData :=
  { s with pRenderCallback := pRenderCallback }

/-- Source: `s_BGUT.pEventHandlerCallback = pEventHandlerCallback;` -/
def BGUTSetCallbackEventHandler (s : BGUTData) (pEventHandlerCallback : Option Addr) :
    BGUTData :=
  { s with pEventHandlerCallback := pEventHandlerCallback }

/-! ## Concrete objects used to evaluate the definitions -/

/-- A heap with one component object, at address 1, not yet owned. -/
def sampleHeap : ComponentHeap := fun addr =>
  if addr = 1 then some { m_pOwner := none, name := "TransformComponent" } else none

/-- An actor that holds two components, under the keys 0 and 4. -/
def sampleActor : Actor :=
  { m_ID := 1
    m_components := { entries := [(0, some 3), (4, some 9)] }
    m_type := "Crate"
    m_resourceFilename := "crate.xml" }

/-! ## Properties of `ActorFactory` -/

/-- One call: the returned value and the stored counter are both the old
counter plus one, reduced modulo `2 ^ 32`. -/
theorem ActorFactory.GetNextActorID_eq (f : ActorFactory) :
    f.GetNextActorID.1 = (f.m_lastActorID + 1) % UINT32_MOD ∧
    f.GetNextActorID.2.m_lastActorID = (f.m_lastActorID + 1) % UINT32_MOD :=
  ⟨rfl, rfl⟩

/-- Closed form of the identifier returned by call number `k` of a run. -/
theorem ActorFactory.nthID_eq (k : Nat) (f : ActorFactory) :
    f.nthID k = (f.m_lastActorID + k + 1) % UINT32_MOD := by
  induction k generalizing f with
  | zero => rfl
  | succ k ih =>
    show ActorFactory.nthID f.GetNextActorID.2 k = _
    rw [ih, (ActorFactory.GetNextActorID_eq f).2]
    simp only [UINT32_MOD]
    unfold ActorID at *
    omega

/-- C1, as stated, fails: on a freshly constructed factory call number
4294967294 returns 4294967295 and the call right after it returns 0, which is
not greater. -/
theorem C1_counterexample :
    ActorFactory.ctor.nthID 4294967294 = 4294967295 ∧
    ActorFactory.ctor.nthID 4294967295 = 0 ∧
    ¬ (ActorFactory.ctor.nthID 4294967294 < ActorFactory.ctor.nthID 4294967295) := by
  simp [ActorFactory.nthID_eq, ActorFactory.ctor, kINVALID_ACTOR_ID, UINT32_MOD]

/-- C1, amended: in a run of consecutive `GetNextActorID` calls during which the
32-bit counter does not wrap (the counter at the start plus the number of calls
stays below `2 ^ 32`), every call returns a value strictly greater than the
value returned by every earlier call. -/
theorem C1_monotone_before_wrap (f : ActorFactory) (i j : Nat) (hij : i < j)
    (hwrap : f.m_lastActorID + j + 1 < UINT32_MOD) :
    f.nthID i < f.nthID j := by
  rw [ActorFactory.nthID_eq, ActorFactory.nthID_eq]
  simp only [UINT32_MOD] at *
  unfold ActorID at *
  omega

/-- Witness of `C1_monotone_before_wrap`: calls 0 and 2 on a fresh factory. -/
theorem C1_monotone_before_wrap_witness :
    (0 : Nat) < 2 ∧ ActorFactory.ctor.m_lastActorID + 2 + 1 < UINT32_MOD ∧
    ActorFactory.ctor.nthID 0 < ActorFactory.ctor.nthID 2 :=
  ⟨by decide, by decide,
    C1_monotone_before_wrap ActorFactory.ctor 0 2 (by decide) (by decide)⟩

/-- C2, as stated, fails: on a freshly constructed factory the first call and
call number 4294967296 both return 1. -/
theorem C2_counterexample :
    (0 : Nat) ≠ 4294967296 ∧
    ActorFactory.ctor.nthID 0 = 1 ∧ ActorFactory.ctor.nthID 4294967296 = 1 := by
  simp [ActorFactory.nthID_eq, ActorFactory.ctor, kINVALID_ACTOR_ID, UINT32_MOD]

/-- C2, amended: two different calls of one run that are fewer than `2 ^ 32`
calls apart return different identifiers, from every factory state. -/
theorem C2_unique_within_window (f : ActorFactory) (i j : Nat) (hij : i ≠ j)
    (hi : i < j + UINT32_MOD) (hj : j < i + UINT32_MOD) :
    f.nthID i ≠ f.nthID j := by
  rw [ActorFactory.nthID_eq, ActorFactory.nthID_eq]
  simp only [UINT32_MOD] at *
  unfold ActorID at *
  omega

/-- Witness of `C2_unique_within_window`: calls 1 and 3 from the state in which
the counter is at its maximum, so that the run wraps. -/
theorem C2_unique_within_window_witness :
    (1 : Nat) ≠ 3 ∧ 1 < 3 + UINT32_MOD ∧ 3 < 1 + UINT32_MOD ∧
    ActorFactory.nthID { m_lastActorID := 4294967295 } 1 ≠
      ActorFactory.nthID { m_lastActorID := 4294967295 } 3 :=
  ⟨by decide, by decide, by decide,
    C2_unique_within_window { m_lastActorID := 4294967295 } 1 3
      (by decide) (by decide) (by decide)⟩

/-- C9: on a freshly constructed factory (counter 0) `GetNextActorID` returns
1, the incremented value, and not the previous value 0 its comment announces;
the counter is left at 1. -/
theorem C9_returns_incremented :
    ActorFactory.ctor.m_lastActorID = 0 ∧
    ActorFactory.ctor.GetNextActorID.1 = 1 ∧
    ActorFactory.ctor.GetNextActorID.1 ≠ ActorFactory.ctor.m_lastActorID ∧
    ActorFactory.ctor.GetNextActorID.2.m_lastActorID = 1 := by
  decide

/-- Below the 32-bit maximum a call returns the counter plus one and stores the
same value. -/
theorem ActorFactory.GetNextActorID_below_max (n : Nat) (h : n + 1 < UINT32_MOD) :
    ActorFactory.GetNextActorID { m_lastActorID := n } = (n + 1, { m_lastActorID := n + 1 }) := by
  simp only [ActorFactory.GetNextActorID, Nat.mod_eq_of_lt h]

/-! ## Properties of `Actor` and `ActorComponent` -/

/-- A key absent from the entry sequence is not found. -/
theorem ActorComponentMap.findIn_absent
    (l : List (ActorComponentID × StrongActorComponentPtr)) (cID : ActorComponentID)
    (h : ∀ p, (cID, p) ∉ l) : ActorComponentMap.findIn l cID = none := by
  induction l with
  | nil => rfl
  | cons e rest ih =>
    obtain ⟨k, v⟩ := e
    have hk : k ≠ cID := by
      intro hk
      exact h v (by simp [hk])
    have hrest : ∀ p, (cID, p) ∉ rest := fun p hp => h p (List.mem_cons_of_mem _ hp)
    simp [ActorComponentMap.findIn, hk, ih hrest]

/-- With keys strictly ascending, the search returns the value of the one entry
that carries the key. -/
theorem ActorComponentMap.findIn_present
    (l : List (ActorComponentID × StrongActorComponentPtr)) (cID : ActorComponentID)
    (p : StrongActorComponentPtr) (hwf : l.Pairwise (fun x y => x.1 < y.1))
    (h : (cID, p) ∈ l) : ActorComponentMap.findIn l cID = some p := by
  induction l with
  | nil => simp at h
  | cons e rest ih =>
    obtain ⟨k, v⟩ := e
    rw [List.pairwise_cons] at hwf
    rcases List.mem_cons.mp h with heq | hmem
    · cases heq
      simp [ActorComponentMap.findIn]
    · have hlt : k < cID := hwf.1 (cID, p) hmem
      have hk : k ≠ cID := Nat.ne_of_lt hlt
      simp [ActorComponentMap.findIn, hk, ih hwf.2 hmem]

/-- C3: the constructor never stores its argument: `GetID` returns what the
storage held before construction, whatever ID is passed; with storage holding 0,
`Actor(7).GetID()` is 0 and not 7. -/
theorem C3_ctor_drops_id :
    (∀ storage aID : ActorID, (Actor.ctor storage aID).GetID = storage) ∧
    (Actor.ctor 0 7).GetID = 0 ∧ (Actor.ctor 0 7).GetID ≠ 7 := by
  refine ⟨fun _ _ => rfl, rfl, by decide⟩

/-- C4: `AddComponent` stores nothing: it returns the actor and the heap it
was given; on a freshly constructed actor and the component at address 1 the
component map is still empty afterwards and the lookup under the component's
own ID yields the empty weak pointer. -/
theorem C4_AddComponent_stores_nothing :
    (∀ (a : Actor) (p : StrongActorComponentPtr) (heap : ComponentHeap),
      Actor.AddComponent a p heap = (a, heap)) ∧
    sampleHeap 1 = some { m_pOwner := none, name := "TransformComponent" } ∧
    (Actor.AddComponent (Actor.ctor 0 1) (some 1) sampleHeap).1.GetComponents.entries = [] ∧
    ((Actor.AddComponent (Actor.ctor 0 1) (some 1) sampleHeap).1.GetComponentPtr
      (ActorComponent.VGetID { m_pOwner := none, name := "TransformComponent" })).1 = none := by
  refine ⟨fun _ _ _ => rfl, rfl, rfl, rfl⟩

/-- C5, as stated, fails: after `AddComponent` of the component at address 1 to
an actor that lives at address 7, the component's owner pointer is still empty;
it does not refer to the actor. -/
theorem C5_counterexample :
    (((Actor.AddComponent (Actor.ctor 0 1) (some 1) sampleHeap).2 1).map
      (fun c => c.m_pOwner)) = some none ∧
    (((Actor.AddComponent (Actor.ctor 0 1) (some 1) sampleHeap).2 1).map
      (fun c => c.m_pOwner)) ≠ some (some 7) := by
  refine ⟨rfl, by decide⟩

/-- C5, amended: the back-reference is written by `SetOwnerPtr` (private, with
`ActorFactory` as only friend): after `c.SetOwnerPtr(p)` the owner pointer of
`c` is `p` and the rest of `c` is as before; `Actor::AddComponent` leaves every
component object, and so every owner pointer, as it was. -/
theorem C5_owner_set_by_SetOwnerPtr :
    (∀ (c : ActorComponent) (pOwner : StrongActorPtr),
      (c.SetOwnerPtr pOwner).m_pOwner = pOwner ∧ (c.SetOwnerPtr pOwner).name = c.name) ∧
    (∀ (a : Actor) (p : StrongActorComponentPtr) (heap : ComponentHeap),
      (Actor.AddComponent a p heap).2 = heap) :=
  ⟨fun _ _ => ⟨rfl, rfl⟩, fun _ _ _ => rfl⟩

/-- C6: after `Destroy` the component map is empty and `GetComponentPtr`
returns the empty weak pointer for every component ID. -/
theorem C6_Destroy_releases_components (a : Actor) :
    a.Destroy.GetComponents.entries = [] ∧
    ∀ cID : ActorComponentID, (a.Destroy.GetComponentPtr cID).1 = none :=
  ⟨rfl, fun _ => rfl⟩

/-- C7: on a well-formed component map, `GetComponentPtr(cID)` returns a weak
pointer to the very object the pointer stored under `cID` names when the map
has such an entry (the component at `addr` for a stored `some addr`), the empty
weak pointer when it has none, and leaves the actor, its component map
included, unchanged. -/
theorem C7_GetComponentPtr_lookup (a : Actor) (cID : ActorComponentID)
    (hwf : a.m_components.WF) :
    (∀ p : StrongActorComponentPtr, (cID, p) ∈ a.m_components.entries →
      (a.GetComponentPtr cID).1 = p) ∧
    (∀ addr : Addr, (cID, some addr) ∈ a.m_components.entries →
      (a.GetComponentPtr cID).1 = some addr) ∧
    ((∀ p : StrongActorComponentPtr, (cID, p) ∉ a.m_components.entries) →
      (a.GetComponentPtr cID).1 = none) ∧
    (a.GetComponentPtr cID).2 = a ∧
    (a.GetComponentPtr cID).2.GetComponents = a.GetComponents := by
  have hfound : ∀ p : StrongActorComponentPtr, (cID, p) ∈ a.m_components.entries →
      (a.GetComponentPtr cID).1 = p := by
    intro p hp
    have hfind := ActorComponentMap.findIn_present _ cID p hwf hp
    simp [Actor.GetComponentPtr, ActorComponentMap.find, hfind, toWeak]
  refine ⟨hfound, fun addr h => hfound (some addr) h, ?_, ?_, ?_⟩
  · intro habs
    have hfind := ActorComponentMap.findIn_absent _ cID habs
    simp [Actor.GetComponentPtr, ActorComponentMap.find, hfind]
  · unfold Actor.GetComponentPtr
    cases a.m_components.find cID <;> rfl
  · unfold Actor.GetComponentPtr
    cases a.m_components.find cID <;> rfl

/-- Witness of `C7_GetComponentPtr_lookup`: on `sampleActor` the key 4 is found
and yields a weak pointer to the component at address 9; the actor is
unchanged. -/
theorem C7_GetComponentPtr_lookup_witness :
    sampleActor.m_components.WF ∧
    (4, some 9) ∈ sampleActor.m_components.entries ∧
    (sampleActor.GetComponentPtr 4).1 = some 9 ∧
    (sampleActor.GetComponentPtr 4).2 = sampleActor :=
  ⟨by decide, by decide,
    (C7_GetComponentPtr_lookup sampleActor 4 (by decide)).2.1 9 (by decide),
    (C7_GetComponentPtr_lookup sampleActor 4 (by decide)).2.2.2.1⟩

/-- C10: `WildcardMatch` answers `false` on every input; on the pattern `*`
with the string `abc`, and on the pattern `abc` with the string `abc`, it
answers `false` where the documented matching relation holds. -/
theorem C10_WildcardMatch_rejects_all :
    (∀ pattern str : String, WildcardMatch pattern str = false) ∧
    WildcardMatch "*" "abc" = false ∧
    wildcardSpecMatches "*".toList "abc".toList = true ∧
    WildcardMatch "abc" "abc" = false ∧
    wildcardSpecMatches "abc".toList "abc".toList = true := by
  refine ⟨fun _ _ => rfl, rfl, by decide, rfl, by decide⟩

/-! ## Properties of `TrimString` -/

/-- Dropping up to the offset `find_if` returns drops the leading blanks. -/
theorem drop_find_if (l : List Char) :
    l.drop (find_if IsNotBlank l) = l.dropWhile isblank := by
  induction l with
  | nil => rfl
  | cons c cs ih =>
    by_cases hc : isblank c = true
    · simp [find_if, IsNotBlank, hc, List.dropWhile, ih]
    · simp [find_if, IsNotBlank, hc, List.dropWhile]

/-- The left trim removes exactly the leading blanks. -/
theorem TrimLeft_eq (l : List Char) : TrimLeft l = l.dropWhile isblank := by
  simp [TrimLeft, erase, drop_find_if]

/-- The right trim removes exactly the trailing blanks. -/
theorem TrimRight_eq (l : List Char) :
    TrimRight l = (l.reverse.dropWhile isblank).reverse := by
  have h := drop_find_if l.reverse
  rw [← h, List.reverse_drop]
  simp [TrimRight, erase]

/-- The input is the right trim followed by blanks only. -/
theorem TrimRight_append (l : List Char) :
    l = TrimRight l ++ (l.reverse.takeWhile isblank).reverse := by
  rw [TrimRight_eq, ← List.reverse_append, List.takeWhile_append_dropWhile,
    List.reverse_reverse]

/-- A right trim does not end with a blank. -/
theorem TrimRight_getLast (l : List Char) (c : Char)
    (h : (TrimRight l).getLast? = some c) : isblank c = false := by
  rw [TrimRight_eq, List.getLast?_reverse] at h
  have hd := List.head?_dropWhile_not isblank l.reverse
  rw [h] at hd
  simpa using hd

/-- Every blank is one of the listed whitespace characters. -/
theorem isListedWhitespace_of_isblank (c : Char) (h : isblank c = true) :
    isListedWhitespace c = true := by
  simp only [isblank, Bool.or_eq_true, decide_eq_true_eq] at h
  rcases h with h | h <;> subst h <;> decide

/-- C11: `TrimString` does not trim all whitespace: the string made of a
newline and the letter `a` is returned as it is, so the non-empty result begins
with a newline, one of the listed whitespace characters; likewise a trailing
carriage return stays, while a leading space and a trailing tab are removed. -/
theorem C11_newline_not_trimmed :
    TrimString [Char.ofNat 10, 'a'] = [Char.ofNat 10, 'a'] ∧
    (TrimString [Char.ofNat 10, 'a']).head? = some (Char.ofNat 10) ∧
    isListedWhitespace (Char.ofNat 10) = true ∧
    TrimString ['a', Char.ofNat 13] = ['a', Char.ofNat 13] ∧
    isListedWhitespace (Char.ofNat 13) = true ∧
    TrimString [' ', 'a', Char.ofNat 9] = ['a'] := by
  decide

/-- What `TrimString` does on every string: the result is a contiguous part of
the input; every removed character is a blank (space or horizontal tab), hence
whitespace; and a non-empty result neither begins nor ends with a blank. -/
theorem TrimString_trims_blanks (s : List Char) :
    ∃ pre post : List Char,
      s = pre ++ TrimString s ++ post ∧
      (∀ c ∈ pre, isblank c = true ∧ isListedWhitespace c = true) ∧
      (∀ c ∈ post, isblank c = true ∧ isListedWhitespace c = true) ∧
      (∀ c, (TrimString s).head? = some c → isblank c = false) ∧
      (∀ c, (TrimString s).getLast? = some c → isblank c = false) := by
  refine ⟨(TrimRight s).takeWhile isblank, (s.reverse.takeWhile isblank).reverse,
    ?_, ?_, ?_, ?_, ?_⟩
  · have h := TrimRight_append s
    rw [TrimString, TrimLeft_eq, List.takeWhile_append_dropWhile]
    exact h
  · intro c hc
    have hb := List.mem_takeWhile_imp hc
    exact ⟨hb, isListedWhitespace_of_isblank c hb⟩
  · intro c hc
    have hb := List.mem_takeWhile_imp (List.mem_reverse.mp hc)
    exact ⟨hb, isListedWhitespace_of_isblank c hb⟩
  · intro c hc
    have hd := List.head?_dropWhile_not isblank (TrimRight s)
    rw [TrimString, TrimLeft_eq] at hc
    rw [hc] at hd
    simpa using hd
  · intro c hc
    apply TrimRight_getLast s c
    rw [TrimString, TrimLeft_eq] at hc
    have hsplit := List.takeWhile_append_dropWhile isblank (TrimRight s)
    rw [← hsplit, List.getLast?_append, hc]
    rfl

/-! ## Properties of `IsRandomRangeValid` -/

/-- C12: `IsRandomRangeValid` is the negation of `minValue < maxValue`: it
answers `false` on the ordered range from 0 to 10, so the assertion of
`Random::Generate` rejects that range, and `true` on the range from 10 to 0. -/
theorem C12_IsRandomRangeValid_negated :
    (∀ r : RandomRange, IsRandomRangeValid r = decide (r.maxValue ≤ r.minValue)) ∧
    IsRandomRangeValid { minValue := 0, maxValue := 10 } = false ∧
    GenerateAssertion { minValue := 0, maxValue := 10 } = false ∧
    IsRandomRangeValid { minValue := 10, maxValue := 0 } = true := by
  refine ⟨fun r => ?_, by decide, by decide, by decide⟩
  unfold IsRandomRangeValid
  by_cases h : r.minValue < r.maxValue
  · simp [h, not_le.mpr h]
  · simp [h, not_lt.mp h]

/-! ## Properties of `Vec2` and `Vec3` -/

/-- C13: `Vec2::Inverse` leaves every vector as it was: on the vector (1, 2)
the components are still (1, 2) and not (-1, -2), while `Vec3::Inverse` turns
(1, 2, 3) into (-1, -2, -3). -/
theorem C13_Vec2_Inverse_keeps_vector :
    (∀ v : Vec2, v.Inverse = v) ∧
    Vec2.Inverse { x := 1, y := 2 } = { x := 1, y := 2 } ∧
    Vec2.Inverse { x := 1, y := 2 } ≠ { x := -1, y := -2 } ∧
    Vec3.Inverse { x := 1, y := 2, z := 3 } = { x := -1, y := -2, z := -3 } := by
  refine ⟨fun _ => rfl, rfl, by decide, by decide⟩

/-- C14: over the integers the result of `a.Cross(b)` is orthogonal to both
operands: `a.Dot(a.Cross(b)) = 0` and `b.Dot(a.Cross(b)) = 0`. -/
theorem C14_Cross_orthogonal (a b : Vec3) :
    a.Dot (a.Cross b) = 0 ∧ b.Dot (a.Cross b) = 0 := by
  constructor <;> simp only [Vec3.Dot, Vec3.Cross] <;> ring

/-! ## Properties of `Timer` -/

/-- C15: after start, stop and a second start the timer reads the time since
the second start only: with start at 0, stop at 10, start at 20 and a reading
at 25 `GetElapsedMillis` gives 5, not (10 - 0) + (25 - 20) = 15, although the
paused timer read 10 at time 20. -/
theorem C15_second_Start_discards_elapsed :
    (∀ c₁ c₂ t0 t1 t2 t3 : TimePoint,
      (Timer.startStopStart c₁ c₂ t0 t1 t2).GetElapsedMillis t3 = t3 - t2) ∧
    (((Timer.ctor true 0 0).Start 0).Stop 10).GetElapsedMillis 20 = 10 ∧
    (Timer.startStopStart 0 0 0 10 20).GetElapsedMillis 25 = 5 ∧
    (Timer.startStopStart 0 0 0 10 20).GetElapsedMillis 25 ≠ (10 - 0) + (25 - 20) := by
  refine ⟨fun _ _ _ _ _ _ => rfl, by decide, by decide, by decide⟩

/-! ## Properties of the toolkit exit code -/

/-- C16: after `BGUTSendExitCode(c)` the running flag is false,
`BGUTGetExitCode()` returns `c` and every other field of the toolkit state is
as before; on the initial toolkit state, and after the callback setters,
`BGUTGetExitCode()` returns `BGE_EXIT_SUCCESS`, which is 0. -/
theorem C16_SendExitCode_effect :
    (∀ (s : BGUTData) (c : Int),
      (BGUTSendExitCode s c).isRunning = false ∧
      BGUTGetExitCode (BGUTSendExitCode s c) = c ∧
      (BGUTSendExitCode s c).pWindow = s.pWindow ∧
      (BGUTSendExitCode s c).defWindowFlags = s.defWindowFlags ∧
      (BGUTSendExitCode s c).pContext = s.pContext ∧
      (BGUTSendExitCode s c).glVersion = s.glVersion ∧
      (BGUTSendExitCode s c).glDebugEnabled = s.glDebugEnabled ∧
      (BGUTSendExitCode s c).defWindowTitle = s.defWindowTitle ∧
      (BGUTSendExitCode s c).defWindowWidth = s.defWindowWidth ∧
      (BGUTSendExitCode s c).defWindowHeight = s.defWindowHeight ∧
      (BGUTSendExitCode s c).windowResizable = s.windowResizable ∧
      (BGUTSendExitCode s c).fullscreenEnabled = s.fullscreenEnabled ∧
      (BGUTSendExitCode s c).verticalSyncEnabled = s.verticalSyncEnabled ∧
      (BGUTSendExitCode s c).multisamplingLevel = s.multisamplingLevel ∧
      (BGUTSendExitCode s c).imGuiEnabled = s.imGuiEnabled ∧
      (BGUTSendExitCode s c).toLimitFrames = s.toLimitFrames ∧
      (BGUTSendExitCode s c).minFrames = s.minFrames ∧
      (BGUTSendExitCode s c).mainLoopTimer = s.mainLoopTimer ∧
      (BGUTSendExitCode s c).pUpdateCallback = s.pUpdateCallback ∧
      (BGUTSendExitCode s c).pRenderCallback = s.pRenderCallback ∧
      (BGUTSendExitCode s c).pEventHandlerCallback = s.pEventHandlerCallback) ∧
    (∀ now₁ now₂ : TimePoint,
      BGUTGetExitCode (s_BGUT_initial now₁ now₂) = BGE_EXIT_SUCCESS) ∧
    (∀ (s : BGUTData) (p : Option Addr),
      BGUTGetExitCode (BGUTSetCallbackUpdate s p) = BGUTGetExitCode s ∧
      BGUTGetExitCode (BGUTSetCallbackRender s p) = BGUTGetExitCode s ∧
      BGUTGetExitCode (BGUTSetCallbackEventHandler s p) = BGUTGetExitCode s) ∧
    BGE_EXIT_SUCCESS = 0 := by
  refine ⟨fun _ _ => ?_, fun _ _ => rfl, fun _ _ => ⟨rfl, rfl, rfl⟩, rfl⟩
  simp [BGUTSendExitCode, BGUTGetExitCode]

end BGE
